import Mathlib

/-!
Verification of the vapi-crm-backend webhook service.

The JavaScript source is shallowly embedded: JS strings are modelled as
Lean `String` (or `List Char` where character-level surgery is needed),
JS `null`/`undefined` object fields as `Option`, and the Firestore
`callers` collection as a `List Record` in insertion order.  JS
truthiness on strings (`""` is falsy) is modelled explicitly via
`jsTruthyStr` / `jsOrS`.
-/

namespace VapiCrm

/-- Case-sensitive prefix test on character lists, mirroring the JS
`String.prototype.startsWith` used in the source. -/
def startsWithL : List Char → List Char → Bool
  | _, [] => true
  | [], _ :: _ => false
  | c :: cs, p :: ps => c = p && startsWithL cs ps

/-- Index of the first occurrence of a character, mirroring JS
`String.prototype.indexOf` (which the source compares against `-1`;
we return `none` for `-1`). -/
def indexOfL : List Char → Char → Option Nat
  | [], _ => none
  | c :: rest, a => if c = a then some 0 else (indexOfL rest a).map (· + 1)

/-- JS `String.prototype.substring(start, stop)` for the in-range case
used by the source (`start ≤ stop ≤ length`). -/
def substringL (s : List Char) (start stop : Nat) : List Char :=
  (s.take stop).drop start

/-- The sip-strip step of `getPhoneNumberFromMessage` (src/server.js
lines 16-21): if the value starts with `sip:` and contains an `@`, keep
only the characters strictly between the scheme and the first `@`. -/
def stripSipL (s : List Char) : List Char :=
  if startsWithL s ("sip:".toList) then
    match indexOfL s '@' with
    | some i => substringL s 4 i
    | none => s
  else s

/-- String wrapper around `stripSipL`. -/
def stripSipStr (s : String) : String :=
  String.mk (stripSipL s.toList)

/-- JS `a || b` restricted to string-or-absent values: a present,
non-empty string short-circuits; `null`/`undefined`/`""` fall through. -/
def jsOrS (a b : Option String) : Option String :=
  match a with
  | some s => if s == "" then b else some s
  | none => b

/-- JS truthiness of a string-or-absent value. -/
def jsTruthyStr (o : Option String) : Bool :=
  match o with
  | some s => !(s == "")
  | none => false

/-- JS `s || d` for plain strings (used as `callerData.contact_name ||
'Unknown'` in the databasecheck branch). -/
def jsOrDefault (s d : String) : String :=
  if s == "" then d else s

/-- The `customer` objects appearing in inbound events: both
`message.customer` and `message.call.customer` carry optional `number`
and `sipUri` string fields (per the data model these are JSON strings). -/
structure Cust where
  number : Option String := none
  sipUri : Option String := none
deriving DecidableEq

/-- The `message.call` sub-object. -/
structure CallObj where
  customer : Option Cust := none
deriving DecidableEq

/-- The `message.toolCall` sub-object; `none` at the `MsgCore` level
models `null`/`undefined` (whose `.name` dereference throws in JS). -/
structure ToolCallObj where
  name : Option String := none
deriving DecidableEq

/-- The `message.artifact` sub-object. -/
structure Artifact where
  transcript : Option String := none
deriving DecidableEq

/-- The `message.analysis` sub-object. -/
structure AnalysisObj where
  summary : Option String := none
deriving DecidableEq

/-- The fields of an inbound event object that the handler consumes. -/
structure MsgCore where
  type : Option String := none
  toolCall : Option ToolCallObj := none
  customer : Option Cust := none
  call : Option CallObj := none
  analysis : Option AnalysisObj := none
  summary : Option String := none
  artifact : Option Artifact := none
  transcript : Option String := none
deriving DecidableEq

/-- `getPhoneNumberFromMessage` (src/server.js lines 13-22):
`message?.customer?.sipUri || message?.call?.customer?.number ||
message?.call?.customer?.sipUri`, then `null` when falsy, else the
sip-strip step. -/
def getPhoneNumberFromMessage (m : MsgCore) : Option String :=
  let sipUri := jsOrS (m.customer.bind Cust.sipUri)
    (jsOrS ((m.call.bind CallObj.customer).bind Cust.number)
      ((m.call.bind CallObj.customer).bind Cust.sipUri))
  match sipUri with
  | none => none
  | some s => if s == "" then none else some (stripSipStr s)

/-- The three phone-source fields in the priority order documented by
the spec and used by the source. -/
def phoneSources (m : MsgCore) : List (Option String) :=
  [m.customer.bind Cust.sipUri,
   (m.call.bind CallObj.customer).bind Cust.number,
   (m.call.bind CallObj.customer).bind Cust.sipUri]

/-- Modelled from the spec words of the amended claim C4: pick the first
present and non-empty source.  This definition exists only to be
compared with `getPhoneNumberFromMessage` in the refinement theorem. -/
def specFirstNonEmpty : List (Option String) → Option String
  | [] => none
  | o :: rest =>
    match o with
    | some s => if s == "" then specFirstNonEmpty rest else some s
    | none => specFirstNonEmpty rest

/-- `sanitizeValue` (src/unnamed/part_000 lines 25-31): members of the
sentinel set are replaced by the empty string. -/
def sanitizeValue (value : String) : String :=
  if ["N/A", "Unknown", "Uncertain"].contains value then "" else value

/-!
Pattern machinery for `extractCallerInfo` (src/server.js lines 216-240).
The four JS regexes are embedded as explicit backtracking matchers over
`List Char`, preserving leftmost-position search, left-to-right
alternation (all alternations in the source are first-character
disjoint, so committing to the first alternative that matches is
faithful), greedy quantifiers with backtracking, and lazy quantifiers.
-/

/-- JS regex `\w` (ASCII word character). -/
def isWordC (c : Char) : Bool :=
  c.isAlpha || c.isDigit || c = '_'

/-- JS regex `\s`, restricted to the ASCII whitespace characters that
occur in transcripts. -/
def isWS (c : Char) : Bool :=
  c = ' ' || c = '\t' || c = '\n' || c = '\r' || c = '\x0b' || c = '\x0c'

/-- Character class `[\w\s]`. -/
def isWordOrWS (c : Char) : Bool :=
  isWordC c || isWS c

/-- Character class `[\w\s+]` of the course regex. -/
def isCourseC (c : Char) : Bool :=
  isWordC c || isWS c || c = '+'

/-- Case-insensitive literal match: consume `pat` (up to case) from the
front of the input, returning the remainder. -/
def matchCI : List Char → List Char → Option (List Char)
  | [], s => some s
  | _ :: _, [] => none
  | p :: ps, c :: cs => if c.toLower = p.toLower then matchCI ps cs else none

/-- Greedy star over a character class: consume as many class characters
as possible, backtracking to shorter runs if the continuation fails. -/
def starG {α : Type} (p : Char → Bool) (k : List Char → Option α) : List Char → Option α
  | [] => k []
  | c :: rest =>
    if p c then
      match starG p k rest with
      | some r => some r
      | none => k (c :: rest)
    else k (c :: rest)

/-- Greedy plus over a character class: one mandatory class character,
then a greedy star. -/
def plusG {α : Type} (p : Char → Bool) (k : List Char → Option α) : List Char → Option α
  | [] => none
  | c :: rest => if p c then starG p k rest else none

/-- Lazy plus over a character class with capture: having consumed `acc`
so far, first try the continuation on every extension by one more class
character, shortest first.  The continuation receives the captured run
and the remaining input. -/
def plusLazyAux {α : Type} (p : Char → Bool)
    (k : List Char → List Char → Option α) : List Char → List Char → Option α
  | _, [] => none
  | acc, c :: rest =>
    if p c then
      match k (acc ++ [c]) rest with
      | some r => some r
      | none => plusLazyAux p k (acc ++ [c]) rest
    else none

/-- The lookahead `(?=\.|$)` shared by the name and location regexes. -/
def lookDotOrEnd : List Char → Bool
  | [] => true
  | c :: _ => c = '.'

/-- Leftmost search: try the position matcher at every suffix, earliest
position first (JS regex scan order). -/
def searchPos {α : Type} (m : List Char → Option α) : List Char → Option α
  | [] => m []
  | c :: rest =>
    match m (c :: rest) with
    | some r => some r
    | none => searchPos m rest

/-- Leftmost search threading the previous character, for patterns with
word boundaries. -/
def searchWithPrev {α : Type} (m : Option Char → List Char → Option α) :
    Option Char → List Char → Option α
  | prev, [] => m prev []
  | prev, c :: rest =>
    match m prev (c :: rest) with
    | some r => some r
    | none => searchWithPrev m (some c) rest

/-- The user-type alternatives, in source order. -/
def userTypeAlts : List (List Char) :=
  ["student".toList, "guardian".toList, "employee".toList,
   "garage owner".toList, "unemployed".toList, "other".toList]

/-- Position matcher for `/\b(student|guardian|employee|garage owner|
unemployed|other)\b/i`; returns the matched text in original case.
Every alternative begins and ends with a word character, so the word
boundaries reduce to the neighbour tests below. -/
def matchUserTypeAt (prev : Option Char) (s : List Char) : Option (List Char) :=
  if (match prev with | some c => isWordC c | none => false) then none
  else
    userTypeAlts.findSome? fun alt =>
      match matchCI alt s with
      | some rest =>
        if (match rest with | c :: _ => isWordC c | [] => false) then none
        else some (s.take alt.length)
      | none => none

/-- Position matcher for
`/(?:my full name is|my name is)\s+([\w\s]+?)(?=\.|$)/i`, returning the
first capture group. -/
def matchNameAt (s : List Char) : Option (List Char) :=
  match
    (match matchCI "my full name is".toList s with
     | some r => some r
     | none => matchCI "my name is".toList s) with
  | none => none
  | some rest =>
    plusG isWS
      (fun rest2 =>
        plusLazyAux isWordOrWS
          (fun acc rem => if lookDotOrEnd rem then some acc else none)
          [] rest2)
      rest

/-- Position matcher for `/interested in the ([\w\s+]+?)\s*course/i`,
returning the first capture group. -/
def matchCourseAt (s : List Char) : Option (List Char) :=
  match matchCI "interested in the ".toList s with
  | none => none
  | some rest =>
    plusLazyAux isCourseC
      (fun acc rem =>
        starG isWS
          (fun rem2 =>
            match matchCI "course".toList rem2 with
            | some _ => some acc
            | none => none)
          rem)
      [] rest

/-- Position matcher for
`/(?:live in|in|from)\s+([\w\s]+?),\s*([\w\s]+?)(?=\.|$)/i`, returning
both capture groups. -/
def matchLocAt (s : List Char) : Option (List Char × List Char) :=
  match
    (match matchCI "live in".toList s with
     | some r => some r
     | none =>
       match matchCI "in".toList s with
       | some r => some r
       | none => matchCI "from".toList s) with
  | none => none
  | some rest =>
    plusG isWS
      (fun r1 =>
        plusLazyAux isWordOrWS
          (fun acc1 rem1 =>
            match rem1 with
            | ',' :: rem2 =>
              starG isWS
                (fun rem3 =>
                  plusLazyAux isWordOrWS
                    (fun acc2 rem4 =>
                      if lookDotOrEnd rem4 then some (acc1, acc2) else none)
                    [] rem3)
                rem2
            | _ => none)
          [] r1)
      rest

/-- Split on newlines, mirroring JS `split('\n')` (an empty input yields
one empty line). -/
def splitOnNl : List Char → List (List Char)
  | [] => [[]]
  | c :: rest =>
    if c = '\n' then [] :: splitOnNl rest
    else
      match splitOnNl rest with
      | l :: ls => (c :: l) :: ls
      | [] => [[c]]

/-- The `userLines` computation of `extractCallerInfo`: keep only lines
starting with `User:`, re-joined by newlines. -/
def userLinesOf (t : List Char) : List Char :=
  List.intercalate ['\n'] ((splitOnNl t).filter fun l => startsWithL l "User:".toList)

/-- JS `String.prototype.trim` restricted to ASCII whitespace. -/
def trimL (s : List Char) : List Char :=
  ((s.dropWhile isWS).reverse.dropWhile isWS).reverse

/-- JS `m.charAt(0).toUpperCase() + m.slice(1)`. -/
def titleCase : List Char → List Char
  | [] => []
  | c :: rest => c.toUpper :: rest

/-- The record returned by `extractCallerInfo`. -/
structure CallerInfo where
  name : String
  course : String
  city : String
  state : String
  userType : String
deriving DecidableEq

/-- The all-`Unknown` default caller info. -/
def unknownInfo : CallerInfo :=
  ⟨"Unknown", "Unknown", "Unknown", "Unknown", "Unknown"⟩

/-- The name field of `extractCallerInfo` over the filtered user lines. -/
def nameField (ul : List Char) : String :=
  match searchPos matchNameAt ul with
  | some m => String.mk (trimL m)
  | none => "Unknown"

/-- The course field of `extractCallerInfo`. -/
def courseField (ul : List Char) : String :=
  match searchPos matchCourseAt ul with
  | some m => String.mk (trimL m)
  | none => "Unknown"

/-- The city field of `extractCallerInfo` (set together with state by
the location regex). -/
def cityField (ul : List Char) : String :=
  match searchPos matchLocAt ul with
  | some m => String.mk (trimL m.1)
  | none => "Unknown"

/-- The state field of `extractCallerInfo`. -/
def stateField (ul : List Char) : String :=
  match searchPos matchLocAt ul with
  | some m => String.mk (trimL m.2)
  | none => "Unknown"

/-- The user-type field of `extractCallerInfo`. -/
def userTypeField (ul : List Char) : String :=
  match searchWithPrev matchUserTypeAt none ul with
  | some m => String.mk (titleCase m)
  | none => "Unknown"

/-- `extractCallerInfo` (src/server.js lines 216-240).  A missing
transcript reaches this function as `''` via the `|| ''` defaults at the
call site, and `if (!transcript)` short-circuits on it. -/
def extractCallerInfo (transcript : String) : CallerInfo :=
  if transcript == "" then unknownInfo
  else
    let ul := userLinesOf transcript.toList
    ⟨nameField ul, courseField ul, cityField ul, stateField ul, userTypeField ul⟩

/-!
The CallAnalyzer.  The network round trip to the oracle is not executed
here; what the claims probe is the catch-branch fallback object, which
is embedded verbatim from each revision, and the enumerated lead-status
domain from the prompt text.
-/

/-- The analysis object consumed by the pipeline.  JS objects are open
maps, so fields that a given revision does not emit are `none`. -/
structure AnalysisR where
  callStatus : String
  leadStatus : String
  contact_status : String
  contact_followupdate : String
  contact_followuptime : String
  remark : Option String := none
  name : Option String := none
  userType : Option String := none
  course : Option String := none
  city : Option String := none
  state : Option String := none
deriving DecidableEq

/-- The catch-branch fallback of `analyzeCallSummary` in src/server.js
(lines 206-212): five literal fields and nothing else; in particular no
`remark` key is present. -/
def serverFallbackAnalysis : AnalysisR :=
  { callStatus := "Connected-IB"
    leadStatus := "Uncertain"
    contact_status := "Uncertain"
    contact_followupdate := "N/A"
    contact_followuptime := "N/A" }

/-- The catch-branch fallback of `analyzeCallSummary` in the bilingual
revision (src/unnamed/part_000 lines 201-213), as a function of the
caught error message. -/
def bilingualFallbackAnalysis (errMsg : String) : AnalysisR :=
  { callStatus := "Connected-IB"
    leadStatus := "Uncertain"
    contact_status := "Uncertain"
    contact_followupdate := "N/A"
    contact_followuptime := "N/A"
    remark := some ("Gemini analysis failed: " ++ errMsg)
    name := some "Unknown"
    userType := some "Unknown"
    course := some "Unknown"
    city := some "Unknown"
    state := some "Unknown" }

/-- The enumerated Lead Status domain, exactly as listed in the prompt
of `analyzeCallSummary` (identical across revisions). -/
def leadStatusDomain : List String :=
  ["Interested", "Not Interested", "Interested In Future", "Call Back",
   "Call Back In Evening", "Call Disconnected By Customer", "Booked",
   "Enquiry For Tools", "Enquiry For Job", "Enquiry For Franchise",
   "Busy", "Applicant Not Available"]

/-!
The persisted `callers` collection and the `/api/handler` route of
src/server.js.  The Firestore collection is modelled as a `List Record`
in insertion order; `where('contact_num','==',p).limit(1)` is the first
matching element.  The network effects that can reject (the equality
query, `add`, `update`) are driven by explicit failure flags in `World`;
`analyzeCallSummary` never rejects (its catch returns the fallback), so
its result is the `analysis` component of `World`, and
`sendToExternalCRM` catches every error internally and cannot influence
the HTTP outcome or the store.
-/

/-- One document of the `callers` collection in the flattened schema of
src/server.js (`fullCrmData` plus `createdAt`). -/
structure Record where
  contact_num : String
  contact_name : String
  contact_status : String
  contact_followuptime : String
  contact_followupdate : String
  userType : String
  city : String
  state : String
  callStatus : String
  leadStatus : String
  lastUpdatedAt : String
  createdAt : Option String
deriving DecidableEq

/-- The strings stored in a record (used to relate the databasecheck
payload to the stored data). -/
def recordFieldStrings (r : Record) : List String :=
  [r.contact_num, r.contact_name, r.contact_status, r.contact_followuptime,
   r.contact_followupdate, r.userType, r.city, r.state, r.callStatus,
   r.leadStatus, r.lastUpdatedAt] ++ r.createdAt.toList

/-- The environment of one request: the store contents plus the outcome
of each fallible external effect and the values that the wall clock and
the oracle round trip produce during the request. -/
structure World where
  store : List Record
  lookupFails : Bool := false
  addFails : Bool := false
  updateFails : Bool := false
  analysis : AnalysisR := serverFallbackAnalysis
  now : String := ""

/-- `callersRef.where('contact_num', '==', p).limit(1).get()`. -/
def findByPhone (store : List Record) (p : String) : Option Record :=
  store.find? fun r => r.contact_num == p

/-- `callerDoc.ref.update(...)`: replace the first record matching the
phone number (the one the limited query returned). -/
def updateFirst (store : List Record) (p : String) (f : Record → Record) : List Record :=
  match store with
  | [] => []
  | r :: rest => if r.contact_num == p then f r :: rest else r :: updateFirst rest p f

/-- The `fullCrmData` object of the end-of-call branch (src/server.js
lines 129-142); `createdAt` is not part of it. -/
def fullCrmData (phone : String) (a : AnalysisR) (ci : CallerInfo) (now : String) : Record :=
  { contact_num := phone
    contact_name := ci.name
    contact_status := a.contact_status
    contact_followuptime := a.contact_followuptime
    contact_followupdate := a.contact_followupdate
    userType := ci.userType
    city := ci.city
    state := ci.state
    callStatus := a.callStatus
    leadStatus := a.leadStatus
    lastUpdatedAt := now
    createdAt := none }

/-- The result payload of the databasecheck branch for an existing
caller (src/server.js lines 101-105). -/
structure DbPayload where
  status : String
  name : String
  lastCallSummary : String
deriving DecidableEq

/-- `JSON.stringify(resultPayload)` for the fixed three-field payload
(field values are assumed to need no JSON escaping). -/
def encodeDbPayload (p : DbPayload) : String :=
  "\x7b\"status\":\"" ++ p.status ++ "\",\"name\":\"" ++ p.name ++
    "\",\"lastCallSummary\":\"" ++ p.lastCallSummary ++ "\"\x7d"

/-- HTTP responses the route can produce. -/
inductive HResp where
  | ok : HResp
  | okJson : String → HResp
  | badRequest : HResp
  | errJson : String → HResp
  | err : HResp
deriving DecidableEq

/-- Outcome of one request: a response together with the resulting store
contents, or an exception escaping the handler uncaught (in which case
no response is sent by the handler code). -/
inductive Outcome where
  | resp : HResp → List Record → Outcome
  | crash : Outcome
deriving DecidableEq

/-- The request body after the transport stage.  `jnull` is the body
`"null"`: `JSON.parse` yields `null` and `parsedBody.message` then
throws.  `scalar` covers non-null non-object JSON values (their
`.message` is `undefined`; a falsy scalar fails `!message`, a truthy one
has no `type`; both acknowledge with 200).  `obj` is a JSON object with
an optional object-valued `message` field (a falsy `message` value falls
through to the object itself, which the `Option` already covers). -/
inductive Body where
  | noBody : Body
  | malformed : Body
  | jnull : Body
  | scalar : Bool → Body
  | obj : Option MsgCore → MsgCore → Body
deriving DecidableEq

/-- The tool-call/databasecheck branch (src/server.js lines 88-112).
The `!phoneNumber` guard is falsy both for `null` and for the empty
string a `sip:@host` input normalizes to, hence the `jsTruthyStr`
test on the normalizer result. -/
def dbCheckBranch (m : MsgCore) (w : World) : Outcome :=
  if jsTruthyStr (getPhoneNumberFromMessage m) then
    if w.lookupFails then .resp (.errJson "Error checking database") w.store
    else
      match findByPhone w.store ((getPhoneNumberFromMessage m).getD "") with
      | none => .resp (.okJson "New caller") w.store
      | some r =>
        .resp (.okJson (encodeDbPayload
          { status := "Existing caller"
            name := jsOrDefault r.contact_name "Unknown"
            lastCallSummary := "Previous call on record." })) w.store
  else .resp (.okJson "New caller") w.store

/-- The transcript consumed by the end-of-call branch:
`message?.artifact?.transcript || message?.transcript || ''`. -/
def eocTranscript (m : MsgCore) : String :=
  (jsOrS (m.artifact.bind Artifact.transcript) m.transcript).getD ""

/-- The record the end-of-call branch assembles for a given phone
number: `fullCrmData` from the analysis and the extracted caller info. -/
def eocData (m : MsgCore) (w : World) : Record :=
  fullCrmData ((getPhoneNumberFromMessage m).getD "") w.analysis
    (extractCallerInfo (eocTranscript m)) w.now

/-- The end-of-call-report branch (src/server.js lines 114-169):
absent phone short-circuits to 200; otherwise lookup then create (with
`createdAt`) or update (which leaves `createdAt` untouched); a rejected
store operation is caught and answered with an empty 500. -/
def eocBranch (m : MsgCore) (w : World) : Outcome :=
  if jsTruthyStr (getPhoneNumberFromMessage m) then
    if w.lookupFails then .resp .err w.store
    else
      match findByPhone w.store ((getPhoneNumberFromMessage m).getD "") with
      | none =>
        if w.addFails then .resp .err w.store
        else .resp .ok (w.store ++ [{ eocData m w with createdAt := some w.now }])
      | some _ =>
        if w.updateFails then .resp .err w.store
        else .resp .ok (updateFirst w.store ((getPhoneNumberFromMessage m).getD "")
          fun old => { eocData m w with createdAt := old.createdAt })
  else .resp .ok w.store

/-- The `POST /api/handler` route (src/server.js lines 70-172).  The
`message.toolCall` dereference has no optional chaining, so a tool-call
event without a `toolCall` object throws. -/
def handler (b : Body) (w : World) : Outcome :=
  match b with
  | .noBody => .resp .ok w.store
  | .malformed => .resp .badRequest w.store
  | .jnull => .crash
  | .scalar _ => .resp .ok w.store
  | .obj om top =>
    if jsTruthyStr (om.getD top).type then
      if (om.getD top).type.getD "" == "tool-call" then
        match (om.getD top).toolCall with
        | none => .crash
        | some tc =>
          if tc.name == some "databasecheck" then dbCheckBranch (om.getD top) w
          else .resp .ok w.store
      else if (om.getD top).type.getD "" == "end-of-call-report" then
        eocBranch (om.getD top) w
      else .resp .ok w.store
    else .resp .ok w.store

/-- Bodies on which the route throws an uncaught TypeError: the JSON
`null` body, and a tool-call event whose `toolCall` field is absent. -/
def crashShapeB : Body → Bool
  | .jnull => true
  | .obj om top =>
    jsTruthyStr (om.getD top).type && ((om.getD top).type.getD "" == "tool-call") &&
      (om.getD top).toolCall.isNone
  | _ => false

/-- Parsed bodies whose event type is neither `end-of-call-report` nor a
tool-call naming `databasecheck`, excluding the tool-call-without-
descriptor shape that throws. -/
def nonProceedingB : Body → Bool
  | .scalar _ => true
  | .obj om top =>
    !jsTruthyStr (om.getD top).type ||
      (!((om.getD top).type.getD "" == "tool-call") &&
       !((om.getD top).type.getD "" == "end-of-call-report")) ||
      (((om.getD top).type.getD "" == "tool-call") &&
        (match (om.getD top).toolCall with
         | some tc => !(tc.name == some "databasecheck")
         | none => false))
  | _ => false

/-!
Theorems for the claims, with their helper lemmas.
-/

theorem startsWithL_append (p s : List Char) : startsWithL (p ++ s) p = true := by
  induction p with
  | nil => simp [startsWithL]
  | cons c cs ih => simp [startsWithL, ih]

theorem indexOfL_append (l1 l2 : List Char) (h : '@' ∉ l1) :
    indexOfL (l1 ++ '@' :: l2) '@' = some l1.length := by
  induction l1 with
  | nil => simp [indexOfL]
  | cons c cs ih =>
    have hc : ¬(c = '@') := fun hh => h (by simp [hh])
    have hcs : '@' ∉ cs := fun hh => h (List.mem_cons_of_mem _ hh)
    simp [indexOfL, hc, ih hcs]

theorem takeDrop_mid (p num rest : List Char) :
    ((p ++ num ++ rest).take (p.length + num.length)).drop p.length = num := by
  induction p with
  | nil =>
    simp only [List.nil_append, List.length_nil, Nat.zero_add, List.drop_zero]
    induction num with
    | nil => simp
    | cons c cs ih => simp
  | cons c cs ih =>
    simp only [List.cons_append, List.length_cons]
    have h1 : cs.length + 1 + num.length = (cs.length + num.length) + 1 := by omega
    rw [h1, List.take_succ_cons, List.drop_succ_cons]
    exact ih

theorem indexOfL_not_mem (s : List Char) (h : '@' ∉ s) : indexOfL s '@' = none := by
  induction s with
  | nil => rfl
  | cons c cs ih =>
    have hc : ¬(c = '@') := fun hh => h (by simp [hh])
    have hcs : '@' ∉ cs := fun hh => h (List.mem_cons_of_mem _ hh)
    simp [indexOfL, hc, ih hcs]

/-- Claim C6: normalization maps every `sip:<num>@<host>` input to
exactly `<num>` (provided `<num>` itself contains no `@`, as phone
numbers do not), and is the identity on plain numeric strings, which
cannot start with the `sip:` scheme. -/
theorem c6_sip_strip :
    (∀ num host : List Char, '@' ∉ num →
      stripSipL ("sip:".toList ++ num ++ '@' :: host) = num) ∧
    (∀ s : List Char, (∀ c ∈ s, c.isDigit = true) → stripSipL s = s) := by
  constructor
  · intro num host h
    have hsw : startsWithL ("sip:".toList ++ num ++ '@' :: host) ("sip:".toList) = true := by
      rw [List.append_assoc]
      exact startsWithL_append _ _
    have hnm : '@' ∉ ("sip:".toList ++ num) := by
      intro hmem
      rcases List.mem_append.mp hmem with h1 | h2
      · simp at h1
      · exact h h2
    have h4 : ("sip:".toList).length = 4 := rfl
    have hidx : indexOfL ("sip:".toList ++ num ++ '@' :: host) '@' = some (4 + num.length) := by
      have hi := indexOfL_append ("sip:".toList ++ num) host hnm
      rw [List.length_append, h4] at hi
      exact hi
    unfold stripSipL
    rw [hsw, hidx]
    simp only [if_true]
    show substringL _ 4 (4 + num.length) = num
    unfold substringL
    calc (("sip:".toList ++ num ++ '@' :: host).take (4 + num.length)).drop 4
        = (("sip:".toList ++ num ++ '@' :: host).take
            (("sip:".toList).length + num.length)).drop ("sip:".toList).length := by rw [h4]
      _ = num := takeDrop_mid _ _ _
  · intro s h
    cases s with
    | nil => rfl
    | cons c cs =>
      have hc : c.isDigit = true := h c (by simp)
      have hsw : startsWithL (c :: cs) ("sip:".toList) = false := by
        show startsWithL (c :: cs) ('s' :: "ip:".toList) = false
        have hcs : ¬(c = 's') := by
          intro hh
          rw [hh] at hc
          exact absurd hc (by decide)
        simp [startsWithL, hcs]
      unfold stripSipL
      rw [hsw]
      simp

/-- Witness for C6 at a concrete SIP URI and a concrete numeric string. -/
theorem c6_sip_strip_witness :
    stripSipL ("sip:".toList ++ "911234".toList ++ '@' :: "host.com".toList) = "911234".toList ∧
    stripSipL "0123456789".toList = "0123456789".toList :=
  ⟨c6_sip_strip.1 "911234".toList "host.com".toList (by decide),
   c6_sip_strip.2 "0123456789".toList (by decide)⟩

/-- Claim C10: a value that starts with `sip:` but contains no `@` is
returned unchanged, scheme prefix included. -/
theorem c10_sip_no_at (s : List Char) (h1 : startsWithL s ("sip:".toList) = true)
    (h2 : '@' ∉ s) : stripSipL s = s := by
  unfold stripSipL
  rw [h1, indexOfL_not_mem s h2]
  simp

/-- Witness for C10 at a concrete at-less `sip:` string. -/
theorem c10_sip_no_at_witness : stripSipL "sip:12345".toList = "sip:12345".toList :=
  c10_sip_no_at "sip:12345".toList (by decide) (by decide)

/-- Claim C7: the sanitizer maps the three sentinels to the empty string
and is the identity elsewhere. -/
theorem c7_sanitize (v : String) :
    (v ∈ ["N/A", "Unknown", "Uncertain"] → sanitizeValue v = "") ∧
    (v ∉ ["N/A", "Unknown", "Uncertain"] → sanitizeValue v = v) := by
  constructor
  · intro h
    simp only [List.mem_cons, List.not_mem_nil, or_false] at h
    rcases h with h | h | h <;> subst h <;> decide
  · intro h
    simp only [List.mem_cons, List.not_mem_nil, or_false, not_or] at h
    simp [sanitizeValue, List.contains, h.1, h.2.1, h.2.2]

/-- Witness for C7 at one sentinel and one non-sentinel value. -/
theorem c7_sanitize_witness :
    sanitizeValue "N/A" = "" ∧ sanitizeValue "Interested" = "Interested" :=
  ⟨(c7_sanitize "N/A").1 (by decide), (c7_sanitize "Interested").2 (by decide)⟩

theorem phoneChain (a b c : Option String) :
    (match jsOrS a (jsOrS b c) with
     | none => none
     | some s => if s == "" then none else some (stripSipStr s)) =
    (specFirstNonEmpty [a, b, c]).map stripSipStr := by
  cases a with
  | none =>
    cases b with
    | none =>
      cases c with
      | none => rfl
      | some sc => by_cases hc : sc = "" <;> simp [jsOrS, specFirstNonEmpty, hc]
    | some sb =>
      by_cases hb : sb = ""
      · cases c with
        | none => simp [jsOrS, specFirstNonEmpty, hb]
        | some sc => by_cases hc : sc = "" <;> simp [jsOrS, specFirstNonEmpty, hb, hc]
      · simp [jsOrS, specFirstNonEmpty, hb]
  | some sa =>
    by_cases ha : sa = ""
    · cases b with
      | none =>
        cases c with
        | none => simp [jsOrS, specFirstNonEmpty, ha]
        | some sc => by_cases hc : sc = "" <;> simp [jsOrS, specFirstNonEmpty, ha, hc]
      | some sb =>
        by_cases hb : sb = ""
        · cases c with
          | none => simp [jsOrS, specFirstNonEmpty, ha, hb]
          | some sc => by_cases hc : sc = "" <;> simp [jsOrS, specFirstNonEmpty, ha, hb, hc]
        · simp [jsOrS, specFirstNonEmpty, ha, hb]
    · simp [jsOrS, specFirstNonEmpty, ha]

/-- Claim C4, amended: the normalizer consults the phone-source fields
in the documented priority order and returns the first present and
non-empty (truthy) one, normalized; when all sources are absent or
empty it returns null. -/
theorem c4_amended (m : MsgCore) :
    getPhoneNumberFromMessage m = (specFirstNonEmpty (phoneSources m)).map stripSipStr :=
  phoneChain _ _ _

/-- A message whose first phone-source field is present but empty. -/
def mC4 : MsgCore :=
  { customer := some { sipUri := some "" },
    call := some { customer := some { number := some "123" } } }

/-- Counterexample to C4 as stated: the first non-null source is the
empty string, yet the normalizer skips it and returns the later source
`123`, so it does not return the first non-null source. -/
theorem c4_counterexample :
    getPhoneNumberFromMessage mC4 = some "123" ∧
    mC4.customer.bind Cust.sipUri = some "" ∧ ("123" : String) ≠ "" := by
  refine ⟨?_, rfl, by decide⟩
  decide

/-- Claim C3, amended: both fallback objects carry the four literal
status and follow-up values, and `Uncertain` is outside the Lead Status
enum; the remark containing the error message exists only in the
bilingual revision, while the src/server.js fallback has no remark
field at all. -/
theorem c3_amended (e : String) :
    serverFallbackAnalysis.callStatus = "Connected-IB" ∧
    serverFallbackAnalysis.leadStatus = "Uncertain" ∧
    serverFallbackAnalysis.contact_status = "Uncertain" ∧
    serverFallbackAnalysis.contact_followupdate = "N/A" ∧
    serverFallbackAnalysis.contact_followuptime = "N/A" ∧
    serverFallbackAnalysis.remark = none ∧
    (bilingualFallbackAnalysis e).callStatus = "Connected-IB" ∧
    (bilingualFallbackAnalysis e).leadStatus = "Uncertain" ∧
    (bilingualFallbackAnalysis e).contact_status = "Uncertain" ∧
    (bilingualFallbackAnalysis e).contact_followupdate = "N/A" ∧
    (bilingualFallbackAnalysis e).contact_followuptime = "N/A" ∧
    (∃ pre post : String, (bilingualFallbackAnalysis e).remark = some (pre ++ e ++ post)) ∧
    "Uncertain" ∉ leadStatusDomain := by
  refine ⟨rfl, rfl, rfl, rfl, rfl, rfl, rfl, rfl, rfl, rfl, rfl,
    ⟨"Gemini analysis failed: ", "", ?_⟩, by decide⟩
  simp [bilingualFallbackAnalysis]

/-- Counterexample to C3 as stated: the src/server.js fallback object
(lines 206-212) carries no remark key, so its remark cannot contain the
error message. -/
theorem c3_counterexample : serverFallbackAnalysis.remark = none := rfl

/-- Claim C8: an empty (or missing, which reaches the extractor as
empty) transcript yields all five fields `Unknown`; the single-line
transcript `User: my name is Asha.` yields name `Asha`; and each of the
five fields independently falls back to `Unknown` when its pattern
finds no match.  Every field is total by construction. -/
theorem c8_extract :
    extractCallerInfo "" = unknownInfo ∧
    (extractCallerInfo "User: my name is Asha.").name = "Asha" ∧
    (∀ t : String, ¬(t = "") →
      (searchPos matchNameAt (userLinesOf t.toList) = none →
        (extractCallerInfo t).name = "Unknown") ∧
      (searchPos matchCourseAt (userLinesOf t.toList) = none →
        (extractCallerInfo t).course = "Unknown") ∧
      (searchPos matchLocAt (userLinesOf t.toList) = none →
        (extractCallerInfo t).city = "Unknown" ∧ (extractCallerInfo t).state = "Unknown") ∧
      (searchWithPrev matchUserTypeAt none (userLinesOf t.toList) = none →
        (extractCallerInfo t).userType = "Unknown")) := by
  refine ⟨by decide, by decide, ?_⟩
  intro t ht
  have hne : (t == "") = false := by
    rw [beq_eq_false_iff_ne]
    exact ht
  simp only [String.toList] at *
  refine ⟨?_, ?_, ?_, ?_⟩ <;> intro h <;>
    simp [extractCallerInfo, hne, nameField, courseField, cityField, stateField,
      userTypeField, String.toList, h]

/-- Witness for C8 at a non-empty transcript matching no pattern. -/
theorem c8_extract_witness :
    (extractCallerInfo "no pattern matches here").name = "Unknown" ∧
    (extractCallerInfo "no pattern matches here").course = "Unknown" ∧
    (extractCallerInfo "no pattern matches here").city = "Unknown" ∧
    (extractCallerInfo "no pattern matches here").state = "Unknown" ∧
    (extractCallerInfo "no pattern matches here").userType = "Unknown" := by
  have h := c8_extract.2.2 "no pattern matches here" (by decide)
  exact ⟨h.1 (by decide), h.2.1 (by decide), (h.2.2.1 (by decide)).1,
    (h.2.2.1 (by decide)).2, h.2.2.2 (by decide)⟩

theorem dbCheck_ok (m : MsgCore) (w : World) (h : w.lookupFails = false) :
    ∃ j, dbCheckBranch m w = .resp (.okJson j) w.store := by
  unfold dbCheckBranch
  cases hph : jsTruthyStr (getPhoneNumberFromMessage m) with
  | false => exact ⟨"New caller", by simp⟩
  | true =>
    simp only [if_true, h, if_false, Bool.false_eq_true]
    cases hf : findByPhone w.store ((getPhoneNumberFromMessage m).getD "") with
    | none => exact ⟨_, rfl⟩
    | some r => exact ⟨_, rfl⟩

theorem eoc_ok (m : MsgCore) (w : World) (h1 : w.lookupFails = false)
    (h2 : w.addFails = false) (h3 : w.updateFails = false) :
    ∃ s, eocBranch m w = .resp .ok s := by
  unfold eocBranch
  cases hph : jsTruthyStr (getPhoneNumberFromMessage m) with
  | false => exact ⟨w.store, by simp⟩
  | true =>
    simp only [if_true, h1, if_false, Bool.false_eq_true]
    cases hf : findByPhone w.store ((getPhoneNumberFromMessage m).getD "") with
    | none =>
      simp only [h2, Bool.false_eq_true, if_false]
      exact ⟨_, rfl⟩
    | some r =>
      simp only [h3, Bool.false_eq_true, if_false]
      exact ⟨_, rfl⟩

/-- Claim C1, amended: when no store operation fails and the body is
neither the JSON null literal nor a tool-call event missing its
`toolCall` descriptor (both of which raise an uncaught TypeError
instead of responding), the terminal outcome is a 400 exactly on a
malformed JSON body and a 200 (plain or JSON) otherwise; in particular
a 500 can only arise from a store operation failure, which includes the
read-only lookup of the tool-call branch, not only write failures. -/
theorem c1_amended (b : Body) (w : World)
    (hw1 : w.lookupFails = false) (hw2 : w.addFails = false) (hw3 : w.updateFails = false)
    (hb : crashShapeB b = false) :
    (b = .malformed → handler b w = .resp .badRequest w.store) ∧
    (¬(b = .malformed) →
      (∃ s, handler b w = .resp .ok s) ∨ (∃ j s, handler b w = .resp (.okJson j) s)) := by
  constructor
  · intro he
    subst he
    rfl
  · intro hne
    cases b with
    | noBody => exact Or.inl ⟨w.store, rfl⟩
    | malformed => exact absurd rfl hne
    | jnull => simp [crashShapeB] at hb
    | scalar tr => exact Or.inl ⟨w.store, rfl⟩
    | obj om top =>
      simp only [handler]
      cases hty : jsTruthyStr (om.getD top).type with
      | false => exact Or.inl ⟨w.store, by simp [hty]⟩
      | true =>
        cases htc : ((om.getD top).type.getD "" == "tool-call") with
        | true =>
          cases hTC : (om.getD top).toolCall with
          | none =>
            exfalso
            simp [crashShapeB, hty, htc, hTC] at hb
          | some tc =>
            cases hnm : (tc.name == some "databasecheck") with
            | true =>
              right
              obtain ⟨j, hj⟩ := dbCheck_ok (om.getD top) w hw1
              exact ⟨j, w.store, by simp [hty, htc, hTC, hnm, hj]⟩
            | false =>
              left
              exact ⟨w.store, by simp [hty, htc, hTC, hnm]⟩
        | false =>
          cases heoc : ((om.getD top).type.getD "" == "end-of-call-report") with
          | true =>
            left
            obtain ⟨s, hs⟩ := eoc_ok (om.getD top) w hw1 hw2 hw3
            exact ⟨s, by simp [hty, htc, heoc, hs]⟩
          | false =>
            left
            exact ⟨w.store, by simp [hty, htc, heoc]⟩

/-- A well-formed databasecheck tool call with a plain phone number. -/
def mTCex : MsgCore :=
  { type := some "tool-call", toolCall := some { name := some "databasecheck" },
    customer := some { sipUri := some "911234" } }

/-- A world whose only failing effect is the store lookup (a read). -/
def wLookupFail : World := { store := [], lookupFails := true }

/-- Counterexample to C1 as stated: a failed store lookup in the
tool-call branch, with both write effects healthy and no write ever
attempted (the store is empty and unchanged), still surfaces as a 500
response, so server errors are not confined to persistence (store
write) failures. -/
theorem c1_counterexample :
    handler (.obj none mTCex) wLookupFail = .resp (.errJson "Error checking database") [] ∧
    wLookupFail.addFails = false ∧ wLookupFail.updateFails = false ∧
    wLookupFail.store = [] := by decide

/-- A benign end-of-call body used to instantiate the amended C1. -/
def bC1 : Body :=
  .obj none { type := some "end-of-call-report", customer := some { sipUri := some "911" } }

/-- Witness for the amended C1 at a concrete body and failure-free
world. -/
theorem c1_amended_witness :
    (bC1 = .malformed → handler bC1 { store := [] } = .resp .badRequest []) ∧
    (¬(bC1 = .malformed) →
      (∃ s, handler bC1 { store := [] } = .resp .ok s) ∨
      (∃ j s, handler bC1 { store := [] } = .resp (.okJson j) s)) :=
  c1_amended bC1 { store := [] } rfl rfl rfl (by decide)

theorem handler_eoc_red (m : MsgCore) (w : World)
    (hm : m.type = some "end-of-call-report") :
    handler (.obj none m) w = eocBranch m w := by
  have e1 : jsTruthyStr (some "end-of-call-report") = true := rfl
  have e2 : ((some "end-of-call-report" : Option String).getD "" == "tool-call") = false := rfl
  have e3 :
    ((some "end-of-call-report" : Option String).getD "" == "end-of-call-report") = true := rfl
  simp [handler, hm, e1, e2, e3]

theorem eoc_create (m : MsgCore) (w : World)
    (hph : jsTruthyStr (getPhoneNumberFromMessage m) = true)
    (hs : w.store = []) (hl : w.lookupFails = false) (ha : w.addFails = false) :
    eocBranch m w = .resp .ok [{ eocData m w with createdAt := some w.now }] := by
  unfold eocBranch
  simp only [hph, if_true, hl, Bool.false_eq_true, if_false, hs]
  simp [findByPhone, ha]

theorem eoc_update_single (m : MsgCore) (w : World) (p : String) (r1 : Record)
    (hp : getPhoneNumberFromMessage m = some p) (hne : ¬(p = ""))
    (hr : r1.contact_num = p)
    (hs : w.store = [r1]) (hl : w.lookupFails = false) (hu : w.updateFails = false) :
    eocBranch m w = .resp .ok [{ eocData m w with createdAt := r1.createdAt }] := by
  have hph : jsTruthyStr (getPhoneNumberFromMessage m) = true := by
    rw [hp]
    simp [jsTruthyStr, hne]
  have hbeq : (r1.contact_num == p) = true := by
    rw [hr]
    simp
  unfold eocBranch
  simp only [hph, if_true, hl, Bool.false_eq_true, if_false, hs, hp, Option.getD_some]
  simp [findByPhone, List.find?, hbeq, hu, updateFirst]
  intro hcon
  simp [jsTruthyStr, hne] at hcon

/-- Claim C2: two end-of-call events with the same normalized phone
number, run sequentially against an initially empty store, first create
one record (stamped `createdAt`) and then update that record in place,
leaving exactly one record keyed by that phone number with its creation
stamp preserved. -/
theorem c2_upsert (m1 m2 : MsgCore) (w1 w2 : World) (p : String)
    (h1 : m1.type = some "end-of-call-report") (h2 : m2.type = some "end-of-call-report")
    (hp1 : getPhoneNumberFromMessage m1 = some p)
    (hp2 : getPhoneNumberFromMessage m2 = some p) (hp0 : ¬(p = ""))
    (hs1 : w1.store = []) (hl1 : w1.lookupFails = false) (ha1 : w1.addFails = false)
    (hl2 : w2.lookupFails = false) (hu2 : w2.updateFails = false) :
    ∃ r1 : Record, handler (.obj none m1) w1 = .resp .ok [r1] ∧ r1.contact_num = p ∧
      r1.createdAt = some w1.now ∧
      ∃ r2 : Record, handler (.obj none m2) { w2 with store := [r1] } = .resp .ok [r2] ∧
        r2.contact_num = p ∧ r2.createdAt = r1.createdAt := by
  have hph1 : jsTruthyStr (getPhoneNumberFromMessage m1) = true := by
    rw [hp1]
    simp [jsTruthyStr, hp0]
  have hr1num : ({ eocData m1 w1 with createdAt := some w1.now } : Record).contact_num = p := by
    simp [eocData, fullCrmData, hp1]
  refine ⟨{ eocData m1 w1 with createdAt := some w1.now }, ?_, hr1num, rfl, ?_⟩
  · rw [handler_eoc_red m1 w1 h1]
    exact eoc_create m1 w1 hph1 hs1 hl1 ha1
  · refine ⟨{ eocData m2 { w2 with store := [{ eocData m1 w1 with createdAt := some w1.now }] }
        with createdAt := ({ eocData m1 w1 with createdAt := some w1.now } : Record).createdAt },
      ?_, ?_, rfl⟩
    · rw [handler_eoc_red m2 _ h2]
      exact eoc_update_single m2 _ p _ hp2 hp0 hr1num rfl hl2 hu2
    · simp [eocData, fullCrmData, hp2]

/-- First end-of-call event for the spec scenario phone number. -/
def mE1 : MsgCore :=
  { type := some "end-of-call-report", customer := some { sipUri := some "+911234567890" } }

/-- Second end-of-call event for the same caller, arriving through the
SIP-URI source this time. -/
def mE2 : MsgCore :=
  { type := some "end-of-call-report",
    call := some { customer := some { number := some "sip:+911234567890@pbx" } } }

/-- Witness for C2 at two concrete events for `+911234567890`. -/
theorem c2_upsert_witness :
    ∃ r1 : Record, handler (.obj none mE1) { store := [], now := "t1" } = .resp .ok [r1] ∧
      r1.contact_num = "+911234567890" ∧ r1.createdAt = some "t1" ∧
      ∃ r2 : Record, handler (.obj none mE2) { store := [r1], now := "t2" } = .resp .ok [r2] ∧
        r2.contact_num = "+911234567890" ∧ r2.createdAt = r1.createdAt :=
  c2_upsert mE1 mE2 { store := [], now := "t1" } { store := [], now := "t2" }
    "+911234567890" rfl rfl (by decide) (by decide) (by decide) rfl rfl rfl rfl rfl

/-- Claim C5, amended: every parsed body whose event type is neither
`end-of-call-report` nor a tool-call naming `databasecheck` is answered
with a plain 200 and the store untouched, except that a tool-call event
whose `toolCall` descriptor is missing raises an uncaught TypeError
instead of being answered at all. -/
theorem c5_amended (b : Body) (w : World) (h : nonProceedingB b = true) :
    handler b w = .resp .ok w.store := by
  cases b with
  | noBody => simp [nonProceedingB] at h
  | malformed => simp [nonProceedingB] at h
  | jnull => simp [nonProceedingB] at h
  | scalar tr => rfl
  | obj om top =>
    simp only [nonProceedingB] at h
    simp only [handler]
    cases hty : jsTruthyStr (om.getD top).type with
    | false => simp [hty]
    | true =>
      rw [hty] at h
      simp only [Bool.not_true, Bool.false_or] at h
      cases htc : ((om.getD top).type.getD "" == "tool-call") with
      | false =>
        rw [htc] at h
        simp only [Bool.not_false, Bool.true_and, Bool.false_and, Bool.or_false] at h
        rw [Bool.not_eq_true'] at h
        simp [hty, htc, h]
      | true =>
        rw [htc] at h
        simp only [Bool.not_true, Bool.false_and, Bool.false_or, Bool.true_and] at h
        cases hTC : (om.getD top).toolCall with
        | none =>
          rw [hTC] at h
          simp at h
        | some tc =>
          rw [hTC] at h
          simp only [Bool.not_eq_true'] at h
          simp [hty, htc, hTC, h]

/-- A tool-call event whose `toolCall` descriptor is missing. -/
def mC5 : MsgCore := { type := some "tool-call" }

/-- Counterexample to C5 as stated: a tool-call event with a missing
tool descriptor does not short-circuit to a 200; the handler throws an
uncaught TypeError on `message.toolCall.name`. -/
theorem c5_counterexample : handler (.obj none mC5) { store := [] } = .crash := by decide

/-- An event with an unrecognized type. -/
def mC5w : MsgCore := { type := some "status-update" }

/-- Witness for the amended C5 at a concrete unrecognized event. -/
theorem c5_amended_witness :
    handler (.obj none mC5w) { store := [] } = .resp .ok [] :=
  c5_amended (.obj none mC5w) { store := [] } (by decide)

theorem handler_dbcheck_red (m : MsgCore) (w : World) (tc : ToolCallObj)
    (hm1 : m.type = some "tool-call") (hm2 : m.toolCall = some tc)
    (hm3 : tc.name = some "databasecheck") :
    handler (.obj none m) w = dbCheckBranch m w := by
  have e1 : jsTruthyStr (some "tool-call") = true := rfl
  have e2 : ((some "tool-call" : Option String).getD "" == "tool-call") = true := rfl
  have e3 : ((some "databasecheck" : Option String) == some "databasecheck") = true := rfl
  simp [handler, hm1, hm2, hm3, e1, e2, e3]

theorem dbCheck_frame (m : MsgCore) (w : World) :
    ∃ r, dbCheckBranch m w = .resp r w.store := by
  unfold dbCheckBranch
  cases hph : jsTruthyStr (getPhoneNumberFromMessage m) with
  | false => exact ⟨_, rfl⟩
  | true =>
    cases hlf : w.lookupFails with
    | true => exact ⟨_, rfl⟩
    | false =>
      cases hf : findByPhone w.store ((getPhoneNumberFromMessage m).getD "") with
      | none => exact ⟨_, rfl⟩
      | some r => exact ⟨_, rfl⟩

/-- Claim C9, amended: the databasecheck branch leaves the store
unchanged in every world (it never creates or updates); an absent or
empty phone yields the fixed `New caller` payload, a missed lookup
yields `New caller`, and a hit yields a payload built from the cached
contact name together with the fixed placeholder string
`Previous call on record.` rather than any stored call summary. -/
theorem c9_amended (m : MsgCore) (w : World) (tc : ToolCallObj)
    (hm1 : m.type = some "tool-call") (hm2 : m.toolCall = some tc)
    (hm3 : tc.name = some "databasecheck") :
    (∃ r, handler (.obj none m) w = .resp r w.store) ∧
    (jsTruthyStr (getPhoneNumberFromMessage m) = false →
      handler (.obj none m) w = .resp (.okJson "New caller") w.store) ∧
    (∀ p, getPhoneNumberFromMessage m = some p → ¬(p = "") → w.lookupFails = false →
      (findByPhone w.store p = none →
        handler (.obj none m) w = .resp (.okJson "New caller") w.store) ∧
      (∀ r0, findByPhone w.store p = some r0 →
        handler (.obj none m) w = .resp (.okJson (encodeDbPayload
          { status := "Existing caller"
            name := jsOrDefault r0.contact_name "Unknown"
            lastCallSummary := "Previous call on record." })) w.store)) := by
  have hred := handler_dbcheck_red m w tc hm1 hm2 hm3
  refine ⟨?_, ?_, ?_⟩
  · rw [hred]
    exact dbCheck_frame m w
  · intro hph
    rw [hred]
    unfold dbCheckBranch
    simp [hph]
  · intro p hp hne hlf
    have hph : jsTruthyStr (getPhoneNumberFromMessage m) = true := by
      rw [hp]
      simp [jsTruthyStr, hne]
    constructor
    · intro hf
      rw [hred]
      unfold dbCheckBranch
      simp only [hph, if_true, hlf, Bool.false_eq_true, if_false, hp, Option.getD_some, hf]
      simp [jsTruthyStr, hne]
    · intro r0 hf
      rw [hred]
      unfold dbCheckBranch
      simp only [hph, if_true, hlf, Bool.false_eq_true, if_false, hp, Option.getD_some, hf]
      simp [jsTruthyStr, hne]

/-- A well-formed databasecheck tool call with a SIP-URI phone source. -/
def mDB : MsgCore :=
  { type := some "tool-call", toolCall := some { name := some "databasecheck" },
    customer := some { sipUri := some "sip:91888@h" } }

/-- Witness for the amended C9 at a concrete tool call against an empty
store. -/
theorem c9_amended_witness :
    handler (.obj none mDB) { store := [] } = .resp (.okJson "New caller") [] := by
  have h := (c9_amended mDB { store := [] } { name := some "databasecheck" }
    rfl rfl rfl).2.2 "91888" (by decide) (by decide) rfl
  exact h.1 (by decide)

/-- A stored record none of whose field values is the placeholder
string. -/
def rEx : Record :=
  { contact_num := "91888", contact_name := "Asha", contact_status := "Interested",
    contact_followuptime := "N/A", contact_followupdate := "2025-01-05",
    userType := "Student", city := "Delhi", state := "Delhi",
    callStatus := "Connected-IB", leadStatus := "Interested",
    lastUpdatedAt := "2025-01-02T00:00:00Z", createdAt := some "2025-01-01T00:00:00Z" }

/-- Counterexample to C9 as stated: for an existing caller the branch
answers with `lastCallSummary` equal to the constant
`Previous call on record.`, which is not among the stored field values
of the record, so the payload does not contain the most-recent-call
summary (the flattened schema stores no call summaries at all). -/
theorem c9_counterexample :
    handler (.obj none mDB) { store := [rEx] } =
      .resp (.okJson (encodeDbPayload
        { status := "Existing caller", name := "Asha",
          lastCallSummary := "Previous call on record." })) [rEx] ∧
    ¬("Previous call on record." ∈ recordFieldStrings rEx) := by decide

end VapiCrm


